import Mathlib

/-!
Verification of the publish-orchestration core of the `socially` library
(`SocialManager.share`, the platform adapters' `post` methods, the
asynchronous media-publish poll loops and the token-refresh retry).

The TypeScript source is shallowly embedded: network I/O is modelled by an
explicit environment record per adapter that supplies the response of each
network call (`Except String _` distinguishes a successful HTTP response
from a thrown request error), and every adapter outcome records the number
of network calls actually performed.  JavaScript string truthiness on
optional fields is modelled by `strOptTruthy`.
-/

set_option autoImplicit false

namespace Socially

/-- Truthiness of an optional JS string: `undefined` and `""` are falsy. -/
def strOptTruthy : Option String → Bool
  | none => false
  | some s => !(s == "")

/-- Kernel-computable `String.startsWith`. -/
def strStartsWith (s t : String) : Bool := t.data.isPrefixOf s.data

/-- Kernel-computable `String.endsWith`. -/
def strEndsWith (s t : String) : Bool := t.data.isSuffixOf s.data

/-- Kernel-computable `String.toLowerCase()`. -/
def lowerStr (s : String) : String := ⟨s.data.map Char.toLower⟩

/-- Embeds `PostContent` from `src/types.ts`: `{ text?: string; media?: string[] }`. -/
structure PostContent where
  text : Option String := none
  media : Option (List String) := none
deriving Repr, DecidableEq

/-- Embeds `PostResult` from `src/types.ts`:
`{ platform: string; success: boolean; postId?: string; error?: any }`.
Error values are modelled as strings (the source stores strings or
response payloads; only their identity matters here). -/
structure PostResult where
  platform : String
  success : Bool
  postId : Option String := none
  error : Option String := none
deriving Repr, DecidableEq

/-! ## Dispatcher (`SocialManager.share`, src/SocialManager.ts lines 50-74)

An adapter is its `name` together with its `post` function; a `post` that
resolves is `.ok result`, a `post` whose promise rejects with an unchecked
error `e` is `.error e`.  The registry  `this.platforms : Map<string,
SocialPlatform>` is an insertion-ordered association list. -/

structure Adapter where
  name : String
  post : PostContent → Except String PostResult

/-- The `platforms` map of a `SocialManager`, in insertion order. -/
abbrev Registry := List (String × Adapter)

/-- Embeds `this.platforms.has(p)`. -/
def hasPlatform (r : Registry) (p : String) : Bool :=
  r.any (fun kv => kv.1 == p)

/-- Embeds `this.platforms.get(p)`. -/
def getPlatform (r : Registry) (p : String) : Option Adapter :=
  (r.find? (fun kv => kv.1 == p)).map (fun kv => kv.2)

/-- Embeds `Array.from(this.platforms.keys())`. -/
def keysOf (r : Registry) : List String :=
  r.map (fun kv => kv.1)

/-- Embeds lines 51-53 of `SocialManager.share`: the explicit target list is
filtered to registry members; with no explicit list every configured
platform is targeted. -/
def targetsOf (r : Registry) (ps? : Option (List String)) : List String :=
  match ps? with
  | some ps => ps.filter (fun p => hasPlatform r p)
  | none => keysOf r

/-- Embeds the `for (const platformName of targetPlatforms)` loop of
`SocialManager.share` (lines 57-71): look the name up, call `post`, push the
result; a rejected `post` is caught and converted to a failed `PostResult`
carrying the thrown error for that platform; a name missing from the
registry contributes nothing. -/
def shareLoop (r : Registry) (c : PostContent) : List String → List PostResult
  | [] => []
  | name :: rest =>
    match getPlatform r name with
    | some a =>
      (match a.post c with
       | .ok res => res
       | .error e => { platform := name, success := false, error := some e }) :: shareLoop r c rest
    | none => shareLoop r c rest

/-- Embeds `SocialManager.share` (src/SocialManager.ts lines 50-74). -/
def share (r : Registry) (c : PostContent) (ps? : Option (List String)) : List PostResult :=
  shareLoop r c (targetsOf r ps?)

/-- The result `share` produces for one attempted target (the body of the
dispatch loop for a name present in the registry; the `none` branch is
unreachable for attempted targets). -/
def dispatchResult (r : Registry) (c : PostContent) (name : String) : PostResult :=
  match getPlatform r name with
  | some a =>
    match a.post c with
    | .ok res => res
    | .error e => { platform := name, success := false, error := some e }
  | none => { platform := name, success := false }

theorem hasPlatform_of_getPlatform {r : Registry} {name : String} {a : Adapter}
    (h : getPlatform r name = some a) : hasPlatform r name = true := by
  induction r with
  | nil => simp [getPlatform, List.find?] at h
  | cons kv rest ih =>
    cases hk : kv.1 == name with
    | true => simp [hasPlatform, hk]
    | false =>
      rw [getPlatform, List.find?, hk] at h
      simp only [hasPlatform, List.any_cons, hk, Bool.false_or]
      exact ih h

theorem getPlatform_isSome_of_hasPlatform {r : Registry} {name : String}
    (h : hasPlatform r name = true) : (getPlatform r name).isSome := by
  induction r with
  | nil => simp [hasPlatform] at h
  | cons kv rest ih =>
    cases hk : kv.1 == name with
    | true => simp [getPlatform, List.find?, hk]
    | false =>
      simp only [hasPlatform, List.any_cons, hk, Bool.false_or] at h
      rw [getPlatform, List.find?, hk]
      exact ih h

theorem shareLoop_eq_map (r : Registry) (c : PostContent) (names : List String)
    (h : ∀ n ∈ names, hasPlatform r n = true) :
    shareLoop r c names = names.map (dispatchResult r c) := by
  induction names with
  | nil => rfl
  | cons name rest ih =>
    have hname : hasPlatform r name = true := h name (List.mem_cons_self _ _)
    have hsome := getPlatform_isSome_of_hasPlatform hname
    obtain ⟨a, ha⟩ := Option.isSome_iff_exists.mp hsome
    rw [shareLoop, ha, List.map_cons, dispatchResult, ha,
      ih (fun n hn => h n (List.mem_cons_of_mem _ hn))]

theorem mem_targetsOf (r : Registry) (ps? : Option (List String)) :
    ∀ n ∈ targetsOf r ps?, hasPlatform r n = true := by
  intro n hn
  cases ps? with
  | some ps =>
    simp only [targetsOf, List.mem_filter] at hn
    exact hn.2
  | none =>
    simp only [targetsOf, keysOf, List.mem_map] at hn
    obtain ⟨kv, hkv, rfl⟩ := hn
    exact List.any_eq_true.mpr ⟨kv, hkv, by simp⟩

theorem share_eq_map (r : Registry) (c : PostContent) (ps? : Option (List String)) :
    share r c ps? = (targetsOf r ps?).map (dispatchResult r c) :=
  shareLoop_eq_map r c _ (mem_targetsOf r ps?)

theorem shareLoop_append (r : Registry) (c : PostContent) (xs ys : List String) :
    shareLoop r c (xs ++ ys) = shareLoop r c xs ++ shareLoop r c ys := by
  induction xs with
  | nil => rfl
  | cons x rest ih =>
    rw [List.cons_append, shareLoop, shareLoop]
    cases getPlatform r x with
    | none => exact ih
    | some a => simp only [ih, List.cons_append]

/-! ## Instagram adapter (`src/platforms/Instagram.ts`, `post` at lines 185-300)

`post` validates credentials, requires a public media URL, creates a media
container, polls `status_code` with `maxAttempts = 30`, and publishes once
the status is `FINISHED` or `READY`.  The environment supplies the id (or
thrown error) of the container call, the `status_code` of the n-th poll,
and the publish response.  The outcome records the number of network calls,
the number of status polls, and whether the publish step was reached. -/

namespace Instagram

structure Config where
  accessToken : Option String := none
  accountId : Option String := none

structure Env where
  container : Except String String
  pollStatus : Nat → String
  publishResp : Except String String

structure Outcome where
  result : PostResult
  calls : Nat
  polls : Nat
  publishAttempted : Bool
deriving Repr, DecidableEq

/-- A failed Instagram `PostResult` together with its call/poll counts. -/
def fail (e : String) (calls polls : Nat) (pub : Bool) : Outcome :=
  ⟨{ platform := "instagram", success := false, error := some e }, calls, polls, pub⟩

/-- Embeds the Step-2 polling loop of `Instagram.post` (lines 240-268):
`while (status !== 'FINISHED' && status !== 'READY')`, throwing on
`status === 'ERROR'`, throwing `Media processing timed out` once
`attempts >= maxAttempts` (30), otherwise polling again.  `attempts`
equals the number of polls performed so far; the value returned with
either constructor is the total number of polls. -/
def pollLoop (poll : Nat → String) (status : String) (attempts : Nat) :
    Except (String × Nat) Nat :=
  if status = "FINISHED" ∨ status = "READY" then .ok attempts
  else if status = "ERROR" then .error ("Media container status is ERROR", attempts)
  else if 30 ≤ attempts then .error ("Media processing timed out", attempts)
  else pollLoop poll (poll attempts) (attempts + 1)
termination_by 30 - attempts
decreasing_by simp_wf; omega

/-- Embeds `Instagram.post`.  The video/image distinction (line 209) only
selects payload field names and is not observable in the outcome. -/
def post (cfg : Config) (env : Env) (content : PostContent) : Outcome :=
  if ¬ strOptTruthy cfg.accessToken ∨ ¬ strOptTruthy cfg.accountId then
    fail "Instagram posting requires accessToken and accountId. Authenticate first." 0 0 false
  else
    match content.media with
    | some (mediaPath :: _) =>
      if ¬ strStartsWith mediaPath "http" then
        fail "Instagram Graph API requires a public URL for media." 0 0 false
      else
        match env.container with
        | .error e => fail e 1 0 false
        | .ok _creationId =>
          match pollLoop env.pollStatus "IN_PROGRESS" 0 with
          | .error (e, n) => fail e (1 + n) n false
          | .ok n =>
            match env.publishResp with
            | .ok postId =>
              ⟨{ platform := "instagram", success := true, postId := some postId },
                1 + n + 1, n, true⟩
            | .error e => fail e (1 + n + 1) n true
    | _ => fail "Instagram requires media (image or video)" 0 0 false

theorem igLoop_step (poll : Nat → String) (a : Nat) (h : a < 30) :
    pollLoop poll "IN_PROGRESS" a = pollLoop poll (poll a) (a + 1) := by
  rw [pollLoop.eq_def, if_neg (by decide), if_neg (by decide), if_neg (by omega)]

theorem igLoop_finished (poll : Nat → String) (a : Nat) :
    pollLoop poll "FINISHED" a = .ok a := by
  rw [pollLoop.eq_def, if_pos (by decide)]

theorem igLoop_error (poll : Nat → String) (a : Nat) :
    pollLoop poll "ERROR" a = .error ("Media container status is ERROR", a) := by
  rw [pollLoop.eq_def, if_neg (by decide), if_pos rfl]

/-- A status string that keeps the Instagram loop polling. -/
def nonTerminal (s : String) : Prop :=
  s ≠ "FINISHED" ∧ s ≠ "READY" ∧ s ≠ "ERROR"

instance (s : String) : Decidable (nonTerminal s) := by
  unfold nonTerminal
  infer_instance

theorem igLoop_timeout (poll : Nat → String) (hpoll : ∀ n, nonTerminal (poll n)) :
    ∀ k attempts status, attempts + k = 30 → nonTerminal status →
      pollLoop poll status attempts = .error ("Media processing timed out", 30) := by
  intro k
  induction k with
  | zero =>
    intro attempts status h30 hs
    rw [pollLoop.eq_def, if_neg (by push_neg; exact ⟨hs.1, hs.2.1⟩), if_neg hs.2.2,
      if_pos (by omega)]
    exact congrArg _ (congrArg _ (by omega))
  | succ k ih =>
    intro attempts status h30 hs
    rw [pollLoop.eq_def, if_neg (by push_neg; exact ⟨hs.1, hs.2.1⟩), if_neg hs.2.2,
      if_neg (by omega)]
    exact ih (attempts + 1) (poll attempts) (by omega) (hpoll attempts)

end Instagram

/-! ## Threads adapter (`Threads.post`)

`post` validates the access token, fetches a missing `userId` over the
network, creates a container, polls `status` with bound `attempts > 10`,
and publishes on `FINISHED`.  An explicit `ERROR` status throws
`Media processing failed: <error_message>`. -/

namespace Threads

structure Config where
  accessToken : Option String := none
  userId : Option String := none

structure PollResp where
  status : String
  errorMessage : String
deriving Repr, DecidableEq

structure Env where
  fetchMe : Except String String
  container : Except String String
  poll : Nat → PollResp
  publishResp : Except String String

structure Outcome where
  result : PostResult
  calls : Nat
  polls : Nat
  publishAttempted : Bool
deriving Repr, DecidableEq

/-- A failed Threads `PostResult` together with its call/poll counts. -/
def fail (e : String) (calls polls : Nat) (pub : Bool) : Outcome :=
  ⟨{ platform := "threads", success := false, error := some e }, calls, polls, pub⟩

/-- Embeds the Step-2 polling loop of `Threads.post` (lines 167-181):
`while (status !== 'FINISHED')`, throwing `Media processing timed out`
once `attempts > 10`, polling, then throwing
`Media processing failed: <error_message>` on an `ERROR` status.
`attempts` equals the number of polls performed so far. -/
def pollLoop (poll : Nat → PollResp) (status : String) (attempts : Nat) :
    Except (String × Nat) Nat :=
  if status = "FINISHED" then .ok attempts
  else if 10 < attempts then .error ("Media processing timed out", attempts)
  else
    let r := poll attempts
    if r.status = "ERROR" then
      .error ("Media processing failed: " ++ r.errorMessage, attempts + 1)
    else pollLoop poll r.status (attempts + 1)
termination_by 11 - attempts
decreasing_by simp_wf; omega

/-- Embeds the container / poll / publish steps of `Threads.post`
(lines 160-195), with `callsBefore` network calls already performed by the
userId fetch. -/
def containerAndPublish (env : Env) (callsBefore : Nat) : Outcome :=
  match env.container with
  | .error e => fail e (callsBefore + 1) 0 false
  | .ok _creationId =>
    match pollLoop env.poll "IN_PROGRESS" 0 with
    | .error (e, n) => fail e (callsBefore + 1 + n) n false
    | .ok n =>
      match env.publishResp with
      | .ok pid =>
        ⟨{ platform := "threads", success := true, postId := some pid },
          callsBefore + 1 + n + 1, n, true⟩
      | .error e => fail e (callsBefore + 1 + n + 1) n true

/-- Embeds `Threads.post`.  A missing `userId` is resolved by a `/me`
network call; a media post requires a public URL; the media-type choice
(`.mp4` ⇒ VIDEO) only selects payload field names. -/
def post (cfg : Config) (env : Env) (content : PostContent) : Outcome :=
  if ¬ strOptTruthy cfg.accessToken then
    fail "Threads posting requires accessToken." 0 0 false
  else
    let fetchCalls : Nat := if strOptTruthy cfg.userId then 0 else 1
    let userId? : Option String :=
      if strOptTruthy cfg.userId then cfg.userId
      else
        match env.fetchMe with
        | .ok uid => some uid
        | .error _ => none
    match userId? with
    | none => fail "Threads posting requires userId." fetchCalls 0 false
    | some _userId =>
      match content.media with
      | some (mediaUrl :: _) =>
        if ¬ strStartsWith mediaUrl "http" then
          { result := { platform := "threads", success := false,
                        error := some "Threads requires public URLs for media." },
            calls := fetchCalls, polls := 0, publishAttempted := false }
        else containerAndPublish env fetchCalls
      | _ => containerAndPublish env fetchCalls

theorem thLoop_step (poll : Nat → PollResp) (status : String) (a : Nat)
    (hs : status ≠ "FINISHED") (ha : a ≤ 10) (hr : (poll a).status ≠ "ERROR") :
    pollLoop poll status a = pollLoop poll (poll a).status (a + 1) := by
  rw [pollLoop.eq_def, if_neg hs, if_neg (by omega)]
  exact if_neg hr

theorem thLoop_finished (poll : Nat → PollResp) (a : Nat) :
    pollLoop poll "FINISHED" a = .ok a := by
  rw [pollLoop.eq_def, if_pos rfl]

theorem thLoop_error (poll : Nat → PollResp) (status : String) (a : Nat)
    (hs : status ≠ "FINISHED") (ha : a ≤ 10) (hr : (poll a).status = "ERROR") :
    pollLoop poll status a =
      .error ("Media processing failed: " ++ (poll a).errorMessage, a + 1) := by
  rw [pollLoop.eq_def, if_neg hs, if_neg (by omega)]
  exact if_pos hr

theorem thLoop_timeout (poll : Nat → PollResp)
    (hpoll : ∀ n, (poll n).status ≠ "FINISHED" ∧ (poll n).status ≠ "ERROR") :
    ∀ k attempts status, attempts + k = 11 → status ≠ "FINISHED" →
      pollLoop poll status attempts = .error ("Media processing timed out", 11) := by
  intro k
  induction k with
  | zero =>
    intro attempts status h11 hs
    rw [pollLoop.eq_def, if_neg hs, if_pos (by omega)]
    exact congrArg _ (congrArg _ (by omega))
  | succ k ih =>
    intro attempts status h11 hs
    rw [pollLoop.eq_def, if_neg hs, if_neg (by omega), if_neg (hpoll attempts).2]
    exact ih (attempts + 1) (poll attempts).status (by omega) (hpoll attempts).1

end Threads

/-! ## Pinterest adapter (`src/platforms/Pinterest.ts`, `post` at lines 102-220)

The video flow registers an upload, uploads the file, then polls
`while (status !== 'succeeded')` — with **no attempt bound**; the only exits
are a `succeeded` status or a `failed` status
(`Video upload failed processing.`).  The loop is embedded as a
fuel-indexed unrolling: `fuelOut` means the real loop has not terminated
within the given number of iterations. -/

namespace Pinterest

structure Config where
  accessToken : Option String := none
  boardId : Option String := none

structure Env where
  register : Except String String
  upload : Except String Unit
  pollStatus : Nat → String
  pin : Except String String

inductive PollOutcome where
  | succeeded (polls : Nat)
  | failed (polls : Nat)
  | fuelOut
deriving Repr, DecidableEq

/-- Embeds the Step-3 polling of the Pinterest video flow (lines 160-171):
`status` starts as `processing`; each iteration polls once; a `failed`
status throws; the loop only stops on `succeeded`.  The extra fuel argument
bounds how many iterations are unrolled: the source loop has no such bound,
so `fuelOut` means it is still running after `fuel` iterations. -/
def pollLoop (poll : Nat → String) (status : String) (i : Nat) : Nat → PollOutcome
  | 0 => if status = "succeeded" then .succeeded i else .fuelOut
  | fuel + 1 =>
    if status = "succeeded" then .succeeded i
    else
      let s := poll i
      if s = "failed" then .failed (i + 1)
      else pollLoop poll s (i + 1) fuel

/-- Does the pattern `\.(mp4|mov|m4v)$/i` of line 128 match? -/
def isVideoPath (s : String) : Bool :=
  strEndsWith (lowerStr s) ".mp4" || strEndsWith (lowerStr s) ".mov" || strEndsWith (lowerStr s) ".m4v"

/-- A failed Pinterest `PostResult` with its network-call count. -/
def fail (e : String) (calls : Nat) : PostResult × Nat :=
  ({ platform := "pinterest", success := false, error := some e }, calls)

/-- Embeds `Pinterest.post`: precondition checks, then the image-URL flow
(one pin call) or the video flow (register, upload, unbounded poll, pin).
Returns `none` when the unbounded poll loop has not finished within `fuel`
iterations; the second component counts network calls. -/
def post (cfg : Config) (env : Env) (content : PostContent) (fuel : Nat) :
    Option (PostResult × Nat) :=
  if ¬ strOptTruthy cfg.accessToken then
    some (fail "Pinterest posting requires accessToken." 0)
  else if ¬ strOptTruthy cfg.boardId then
    some (fail "Pinterest posting requires a boardId (configure in SocialConfig)." 0)
  else
    match content.media with
    | some (mediaPath :: _) =>
      if isVideoPath mediaPath then
        match env.register with
        | .error e => some (fail e 1)
        | .ok _mediaId =>
          match env.upload with
          | .error e => some (fail e 2)
          | .ok _ =>
            match pollLoop env.pollStatus "processing" 0 fuel with
            | .fuelOut => none
            | .failed n => some (fail "Video upload failed processing." (2 + n))
            | .succeeded n =>
              match env.pin with
              | .ok pid =>
                some ({ platform := "pinterest", success := true, postId := some pid }, 2 + n + 1)
              | .error e => some (fail e (2 + n + 1))
      else if ¬ strStartsWith mediaPath "http" then
        some (fail "Pinterest only supports image URLs (or local video files)." 0)
      else
        match env.pin with
        | .ok pid => some ({ platform := "pinterest", success := true, postId := some pid }, 1)
        | .error e => some (fail e 1)
    | _ => some (fail "Pinterest requires media (image URL or video file)." 0)

/-- The Pinterest poll loop never terminates on `poll`: no number of
unrolled iterations reaches a terminal state. -/
def pollLoopDiverges (poll : Nat → String) : Prop :=
  ∀ i fuel, pollLoop poll "processing" i fuel = .fuelOut

/-- `Pinterest.post` never terminates on these inputs: every unrolling
depth of its poll loop is exhausted without reaching a terminal state. -/
def postDiverges (cfg : Config) (env : Env) (content : PostContent) : Prop :=
  ∀ fuel, post cfg env content fuel = none

/-- A platform that answers every status poll with `processing`. -/
def foreverProcessing : Nat → String := fun _ => "processing"

theorem pollLoop_diverges_of_processing (poll : Nat → String)
    (h : ∀ n, poll n = "processing") : pollLoopDiverges poll := by
  intro i fuel
  induction fuel generalizing i with
  | zero => simp [pollLoop]
  | succ fuel ih =>
    rw [pollLoop, if_neg (by decide), h i, if_neg (by decide)]
    exact ih (i + 1)

end Pinterest

/-- C4 counterexample: the claim asserts every async-publish poll loop —
including Pinterest's — has a bounded maximum attempt count and times out on
an infinite non-terminal response sequence, but Pinterest's
`while (status !== 'succeeded')` loop has no bound: against a platform that
always answers `processing`, a fully-configured video post never terminates
(no unrolling depth completes, so in particular no timeout failure is ever
produced). -/
theorem C4_counterexample_pinterest_loop_unbounded :
    Pinterest.pollLoopDiverges Pinterest.foreverProcessing ∧
      Pinterest.postDiverges { accessToken := some "t", boardId := some "b" }
        { register := .ok "m1", upload := .ok (), pollStatus := Pinterest.foreverProcessing,
          pin := .ok "p1" }
        { text := some "hi", media := some ["clip.mp4"] } := by
  have hdiv := Pinterest.pollLoop_diverges_of_processing Pinterest.foreverProcessing
    (fun _ => rfl)
  refine ⟨hdiv, fun fuel => ?_⟩
  show Pinterest.post _ _ _ _ = none
  rw [Pinterest.post]
  rw [if_neg (by decide), if_neg (by decide)]
  simp only [Pinterest.isVideoPath]
  rw [if_pos (by decide)]
  rw [hdiv 0 fuel]

/-- C4 as amended: Instagram's and Threads' poll loops do have bounded
attempt counts (30 and 11): for every response sequence that never turns
terminal, both loops abort with the diagnostic `Media processing timed out`,
and that diagnostic differs from the explicit processing-failure diagnostics
(`Media container status is ERROR`, `Media processing failed: <msg>`).
Pinterest's loop is excluded: it is unbounded and has no timeout diagnostic. -/
theorem C4_amended_instagram_threads_polls_bounded
    (igPoll : Nat → String) (thPoll : Nat → Threads.PollResp)
    (hig : ∀ n, Instagram.nonTerminal (igPoll n))
    (hth : ∀ n, (thPoll n).status ≠ "FINISHED" ∧ (thPoll n).status ≠ "ERROR") :
    Instagram.pollLoop igPoll "IN_PROGRESS" 0 =
        .error ("Media processing timed out", 30) ∧
      Threads.pollLoop thPoll "IN_PROGRESS" 0 =
        .error ("Media processing timed out", 11) ∧
      ("Media processing timed out" : String) ≠ "Media container status is ERROR" ∧
      ∀ msg : String, ("Media processing timed out" : String) ≠
        "Media processing failed: " ++ msg := by
  refine ⟨?_, ?_, by decide, ?_⟩
  · exact Instagram.igLoop_timeout igPoll hig 30 0 "IN_PROGRESS" (by omega) (by decide)
  · exact Threads.thLoop_timeout thPoll hth 11 0 "IN_PROGRESS" (by omega) (by decide)
  · intro msg h
    have hd := congrArg (fun s => s.data.take 25) h
    simp only [String.data_append] at hd
    rw [List.take_append_of_le_length (by decide)] at hd
    revert hd
    decide

/-- Witness for the amended C4: the constant `IN_PROGRESS` response
sequences satisfy the non-terminal hypotheses and both loops time out. -/
theorem C4_amended_witness :
    Instagram.pollLoop (fun _ => "IN_PROGRESS") "IN_PROGRESS" 0 =
        .error ("Media processing timed out", 30) ∧
      Threads.pollLoop (fun _ => ⟨"IN_PROGRESS", ""⟩) "IN_PROGRESS" 0 =
        .error ("Media processing timed out", 11) := by
  have hig : ∀ n : Nat, Instagram.nonTerminal "IN_PROGRESS" := fun _ => by decide
  have hth : ∀ n : Nat, ("IN_PROGRESS" : String) ≠ "FINISHED" ∧
      ("IN_PROGRESS" : String) ≠ "ERROR" := fun _ => by decide
  have h := C4_amended_instagram_threads_polls_bounded (fun _ => "IN_PROGRESS")
    (fun _ => ⟨"IN_PROGRESS", ""⟩) hig hth
  exact ⟨h.1, h.2.1⟩

namespace Instagram

theorem igLoop_three (poll : Nat → String) (h0 : poll 0 = "IN_PROGRESS")
    (h1 : poll 1 = "IN_PROGRESS") (h2 : poll 2 = "FINISHED") :
    pollLoop poll "IN_PROGRESS" 0 = .ok 3 := by
  rw [igLoop_step poll 0 (by omega), h0, igLoop_step poll 1 (by omega), h1,
    igLoop_step poll 2 (by omega), h2, igLoop_finished]

theorem igLoop_timeout30 (poll : Nat → String)
    (h : ∀ n, poll n = "IN_PROGRESS") :
    pollLoop poll "IN_PROGRESS" 0 = .error ("Media processing timed out", 30) :=
  igLoop_timeout poll (fun n => by rw [h n]; decide) 30 0 "IN_PROGRESS" (by omega) (by decide)

theorem igLoop_error_first (poll : Nat → String) (h0 : poll 0 = "ERROR") :
    pollLoop poll "IN_PROGRESS" 0 = .error ("Media container status is ERROR", 1) := by
  rw [igLoop_step poll 0 (by omega), h0, igLoop_error]

theorem post_unfold (cfg : Config) (env : Env) (content : PostContent)
    (url : String) (rest : List String) (cid : String)
    (htok : strOptTruthy cfg.accessToken = true)
    (hacc : strOptTruthy cfg.accountId = true)
    (hmedia : content.media = some (url :: rest))
    (hurl : strStartsWith url "http" = true)
    (hcid : env.container = .ok cid) :
    post cfg env content =
      match pollLoop env.pollStatus "IN_PROGRESS" 0 with
      | .error (e, n) => fail e (1 + n) n false
      | .ok n =>
        match env.publishResp with
        | .ok postId =>
          ⟨{ platform := "instagram", success := true, postId := some postId },
            1 + n + 1, n, true⟩
        | .error e => fail e (1 + n + 1) n true := by
  rw [post, if_neg (by simp [htok, hacc]), hmedia]
  simp [hurl, hcid]

end Instagram

namespace Threads

theorem thLoop_three (poll : Nat → PollResp) (h0 : (poll 0).status = "IN_PROGRESS")
    (h1 : (poll 1).status = "IN_PROGRESS") (h2 : (poll 2).status = "FINISHED") :
    pollLoop poll "IN_PROGRESS" 0 = .ok 3 := by
  rw [thLoop_step poll _ 0 (by decide) (by omega) (by rw [h0]; decide), h0,
    thLoop_step poll _ 1 (by decide) (by omega) (by rw [h1]; decide), h1,
    thLoop_step poll _ 2 (by decide) (by omega) (by rw [h2]; decide), h2,
    thLoop_finished]

theorem thLoop_timeout11 (poll : Nat → PollResp)
    (h : ∀ n, (poll n).status = "IN_PROGRESS") :
    pollLoop poll "IN_PROGRESS" 0 = .error ("Media processing timed out", 11) :=
  thLoop_timeout poll (fun n => by rw [h n]; exact ⟨by decide, by decide⟩)
    11 0 "IN_PROGRESS" (by omega) (by decide)

theorem thLoop_error_first (poll : Nat → PollResp) (h0 : (poll 0).status = "ERROR") :
    pollLoop poll "IN_PROGRESS" 0 =
      .error ("Media processing failed: " ++ (poll 0).errorMessage, 1) :=
  thLoop_error poll _ 0 (by decide) (by omega) h0

theorem post_text_unfold (cfg : Config) (env : Env) (content : PostContent)
    (uid : String)
    (htok : strOptTruthy cfg.accessToken = true)
    (huid : cfg.userId = some uid) (hne : uid ≠ "")
    (hmedia : content.media = none) :
    post cfg env content = containerAndPublish env 0 := by
  have htruthy : strOptTruthy cfg.userId = true := by
    rw [huid]; simpa [strOptTruthy] using hne
  rw [post, if_neg (by simp [htok])]
  simp only [htruthy, if_true, huid, hmedia]
  simp [strOptTruthy, hne]

end Threads

/-- C6: the async-publish scenarios of `Instagram.post` and `Threads.post`.
With valid credentials, acceptable media and a successful container call:
for poll responses `[PROCESSING, PROCESSING, READY]` exactly three status
polls occur and the publish call is then attempted; for responses that
never leave `PROCESSING` the job ends after the attempt bound (30 polls
for Instagram, 11 for Threads) in a timeout failure and publish is never
attempted; for an explicit `ERROR` poll response, polling stops after one
poll — fewer than the bound — and publish is never attempted. -/
theorem C6_async_publish_poll_scenarios :
    (∀ (cfg : Instagram.Config) (env : Instagram.Env) (content : PostContent)
        (url : String) (rest : List String) (cid : String),
      strOptTruthy cfg.accessToken = true → strOptTruthy cfg.accountId = true →
      content.media = some (url :: rest) → strStartsWith url "http" = true →
      env.container = .ok cid →
      ((env.pollStatus 0 = "IN_PROGRESS" → env.pollStatus 1 = "IN_PROGRESS" →
          env.pollStatus 2 = "FINISHED" →
          (Instagram.post cfg env content).polls = 3 ∧
            (Instagram.post cfg env content).publishAttempted = true) ∧
        ((∀ n, env.pollStatus n = "IN_PROGRESS") →
          (Instagram.post cfg env content).polls = 30 ∧
            (Instagram.post cfg env content).publishAttempted = false ∧
            (Instagram.post cfg env content).result =
              { platform := "instagram", success := false,
                error := some "Media processing timed out" }) ∧
        (env.pollStatus 0 = "ERROR" →
          (Instagram.post cfg env content).polls = 1 ∧ 1 < 30 ∧
            (Instagram.post cfg env content).publishAttempted = false ∧
            (Instagram.post cfg env content).result =
              { platform := "instagram", success := false,
                error := some "Media container status is ERROR" }))) ∧
    (∀ (cfg : Threads.Config) (env : Threads.Env) (content : PostContent)
        (uid : String) (cid : String),
      strOptTruthy cfg.accessToken = true → cfg.userId = some uid → uid ≠ "" →
      content.media = none → env.container = .ok cid →
      (((env.poll 0).status = "IN_PROGRESS" → (env.poll 1).status = "IN_PROGRESS" →
          (env.poll 2).status = "FINISHED" →
          (Threads.post cfg env content).polls = 3 ∧
            (Threads.post cfg env content).publishAttempted = true) ∧
        ((∀ n, (env.poll n).status = "IN_PROGRESS") →
          (Threads.post cfg env content).polls = 11 ∧
            (Threads.post cfg env content).publishAttempted = false ∧
            (Threads.post cfg env content).result =
              { platform := "threads", success := false,
                error := some "Media processing timed out" }) ∧
        ((env.poll 0).status = "ERROR" →
          (Threads.post cfg env content).polls = 1 ∧ 1 < 11 ∧
            (Threads.post cfg env content).publishAttempted = false ∧
            (Threads.post cfg env content).result =
              { platform := "threads", success := false,
                error := some ("Media processing failed: " ++
                  (env.poll 0).errorMessage) }))) := by
  constructor
  · intro cfg env content url rest cid htok hacc hmedia hurl hcid
    have hunf := Instagram.post_unfold cfg env content url rest cid htok hacc hmedia hurl hcid
    refine ⟨?_, ?_, ?_⟩
    · intro h0 h1 h2
      rw [hunf, Instagram.igLoop_three env.pollStatus h0 h1 h2]
      cases env.publishResp <;> simp [Instagram.fail]
    · intro h
      rw [hunf, Instagram.igLoop_timeout30 env.pollStatus h]
      simp [Instagram.fail]
    · intro h0
      rw [hunf, Instagram.igLoop_error_first env.pollStatus h0]
      simp [Instagram.fail]
  · intro cfg env content uid cid htok huid hne hmedia hcid
    have hunf := Threads.post_text_unfold cfg env content uid htok huid hne hmedia
    refine ⟨?_, ?_, ?_⟩
    · intro h0 h1 h2
      rw [hunf, Threads.containerAndPublish, hcid,
        Threads.thLoop_three env.poll h0 h1 h2]
      cases env.publishResp <;> simp [Threads.fail]
    · intro h
      rw [hunf, Threads.containerAndPublish, hcid,
        Threads.thLoop_timeout11 env.poll h]
      simp [Threads.fail]
    · intro h0
      rw [hunf, Threads.containerAndPublish, hcid,
        Threads.thLoop_error_first env.poll h0]
      simp [Threads.fail]

/-- Witness for C6: concrete Instagram and Threads posts against a
three-poll environment; three polls happen and publish is attempted. -/
theorem C6_witness :
    (Instagram.post { accessToken := some "t", accountId := some "a" }
        { container := .ok "c1",
          pollStatus := fun n => if n < 2 then "IN_PROGRESS" else "FINISHED",
          publishResp := .ok "p1" }
        { text := some "hi", media := some ["https://img"] }).polls = 3 ∧
      (Threads.post { accessToken := some "t", userId := some "u" }
        { fetchMe := .ok "u", container := .ok "c2",
          poll := fun n => if n < 2 then ⟨"IN_PROGRESS", ""⟩ else ⟨"FINISHED", ""⟩,
          publishResp := .ok "p2" }
        { text := some "hi" }).polls = 3 := by
  have h := C6_async_publish_poll_scenarios
  constructor
  · exact (h.1 { accessToken := some "t", accountId := some "a" }
      { container := .ok "c1",
        pollStatus := fun n => if n < 2 then "IN_PROGRESS" else "FINISHED",
        publishResp := .ok "p1" }
      { text := some "hi", media := some ["https://img"] }
      "https://img" [] "c1" (by decide) (by decide) rfl (by decide) rfl).1 rfl rfl rfl |>.1
  · exact (h.2 { accessToken := some "t", userId := some "u" }
      { fetchMe := .ok "u", container := .ok "c2",
        poll := fun n => if n < 2 then ⟨"IN_PROGRESS", ""⟩ else ⟨"FINISHED", ""⟩,
        publishResp := .ok "p2" }
      { text := some "hi" } "u" "c2" (by decide) rfl (by decide) rfl rfl).1 rfl rfl rfl |>.1

/-! ## YouTube adapter (`YouTube.post`)

`post` validates the token and the video extension, uploads, and on an
HTTP 401 with a refresh token available refreshes and then re-enters
`this.post(content)`.  The comment in the source says `// Retry once`, but
the recursion carries no retry flag, so every further 401 on the retried
upload triggers another refresh-and-retry.  The embedding is fuel-indexed
(`none` = the recursion had not terminated within `fuel` nested calls) and
counts upload and refresh network calls. -/

namespace YouTube

structure Config where
  accessToken : Option String := none
  refreshToken : Option String := none

inductive UploadResp where
  | ok (id : String)
  | err401 (data : String)
  | err (data : String)
deriving Repr, DecidableEq

structure Env where
  upload : Nat → UploadResp
  refresh : Nat → Except String String

structure Outcome where
  result : PostResult
  uploads : Nat
  refreshes : Nat
deriving Repr, DecidableEq

/-- A failed YouTube `PostResult` with its upload / refresh call counts. -/
def fail (e : String) (u r : Nat) : Outcome :=
  ⟨{ platform := "youtube", success := false, error := some e }, u, r⟩

/-- Does the pattern `\.(mp4|mov|avi|mkv)$/i` of the extension check match? -/
def isVideoPath (s : String) : Bool :=
  strEndsWith (lowerStr s) ".mp4" || strEndsWith (lowerStr s) ".mov" ||
    strEndsWith (lowerStr s) ".avi" || strEndsWith (lowerStr s) ".mkv"

/-- Embeds `YouTube.post`: `accessToken` is the currently stored token
(mutated by a successful refresh), `u`/`r` index and count the upload and
refresh calls performed so far. -/
def postAux (env : Env) (refreshToken : Option String) (content : PostContent) :
    Option String → Nat → Nat → Nat → Option Outcome
  | _, _, _, 0 => none
  | accessToken, u, r, fuel + 1 =>
    if ¬ strOptTruthy accessToken then
      some (fail "YouTube posting requires accessToken." u r)
    else
      match content.media with
      | some (videoPath :: _) =>
        if ¬ isVideoPath videoPath then
          some (fail "File does not appear to be a video." u r)
        else
          match env.upload u with
          | .ok id =>
            some ⟨{ platform := "youtube", success := true, postId := some id }, u + 1, r⟩
          | .err401 data401 =>
            if strOptTruthy refreshToken then
              match env.refresh r with
              | .ok newTok => postAux env refreshToken content (some newTok) (u + 1) (r + 1) fuel
              | .error _ => some (fail "Token expired and refresh failed." (u + 1) (r + 1))
            else some (fail data401 (u + 1) r)
          | .err data => some (fail data (u + 1) r)
      | _ => some (fail "YouTube requires a video file." u r)

/-- Embeds a call of `YouTube.post` on a freshly configured adapter. -/
def post (cfg : Config) (env : Env) (content : PostContent) (fuel : Nat) : Option Outcome :=
  postAux env cfg.refreshToken content cfg.accessToken 0 0 fuel

/-- Upload responses 401, 401, then a server error; refresh always succeeds. -/
def envTwice401 : Env :=
  { upload := fun n => if n = 0 then .err401 "Unauthorized-1"
      else if n = 1 then .err401 "Unauthorized-2" else .err "Server Error"
    refresh := fun _ => .ok "fresh" }

/-- Every upload replies 401 and every refresh succeeds. -/
def envForever401 : Env :=
  { upload := fun _ => .err401 "Unauthorized", refresh := fun _ => .ok "fresh" }

end YouTube

/-- C5: the claim (and the source's own `// Retry once` comment) require
exactly one token refresh and exactly one retried upload, with the retry's
failure surfaced with no further refreshes; but the retry re-enters
`this.post` with no retry flag.  Against upload responses
`[401, 401, server error]` with succeeding refreshes, `post` performs two
refreshes and three uploads before surfacing the third failure; and when
every upload replies 401 and every refresh succeeds, the recursion never
terminates at any depth. -/
theorem C5_youtube_refresh_retry_unbounded :
    YouTube.post { accessToken := some "tok", refreshToken := some "rt" }
        YouTube.envTwice401 { media := some ["video.mp4"] } 5 =
      some (YouTube.fail "Server Error" 3 2) ∧
    ∀ fuel : Nat,
      YouTube.post { accessToken := some "tok", refreshToken := some "rt" }
        YouTube.envForever401 { media := some ["video.mp4"] } fuel = none := by
  constructor
  · decide
  · have key : ∀ (fuel u r : Nat) (tok : String), tok ≠ "" →
        YouTube.postAux YouTube.envForever401 (some "rt") { media := some ["video.mp4"] }
          (some tok) u r fuel = none := by
      intro fuel
      induction fuel with
      | zero => intro u r tok _; rfl
      | succ fuel ih =>
        intro u r tok htok
        rw [YouTube.postAux]
        rw [if_neg (by simp [strOptTruthy, htok])]
        simp only [YouTube.envForever401]
        rw [if_neg (by decide), if_pos (by decide)]
        exact ih (u + 1) (r + 1) "fresh" (by decide)
    intro fuel
    exact key fuel 0 0 "tok" (by decide)

/-! ## Facebook adapter (`src/platforms/Facebook.ts`, `post` at lines 141-235)

`post` performs **no credential precondition check**: it immediately calls
`GET /me/accounts` (line 152) with whatever `accessToken` is stored — even
`undefined`.  If the call fails it falls back to the configured token and
page id; if it returns pages, the configured `pageId` is looked up and on a
miss the **first returned page** is used with its page access token.  The
outcome records the exact network calls with their target page and token. -/

namespace Facebook

structure Config where
  accessToken : Option String := none
  pageId : Option String := none

structure Page where
  id : String
  name : String
  access_token : String
deriving Repr, DecidableEq

inductive Call where
  | accounts
  | photos (pageId : String) (token : Option String) (url : String) (caption : Option String)
  | feed (pageId : String) (token : Option String) (message : String)
deriving Repr, DecidableEq

structure Env where
  accounts : Except String (List Page)
  photosResp : Except String String
  feedResp : Except String String

structure Outcome where
  result : PostResult
  calls : List Call
deriving Repr, DecidableEq

/-- A failed Facebook `PostResult` with the network calls performed. -/
def fail (e : String) (calls : List Call) : Outcome :=
  ⟨{ platform := "facebook", success := false, error := some e }, calls⟩

/-- Embeds the inner try of `Facebook.post` (lines 150-178): resolve the
page access token and target page id from the `/me/accounts` response,
falling back to the first listed page when the configured `pageId` matches
none, and keeping the configured token/page when the call fails, returns no
pages, or the chosen page carries no (truthy) `access_token`. -/
def resolveTarget (cfg : Config) (env : Env) : Option String × Option String :=
  match env.accounts with
  | .error _ => (cfg.accessToken, cfg.pageId)
  | .ok pages =>
    match pages with
    | [] => (cfg.accessToken, cfg.pageId)
    | first :: _ =>
      let targetPage? : Option Page :=
        match cfg.pageId with
        | some pid => if pid == "" then none else pages.find? (fun p => p.id == pid)
        | none => none
      let targetPage := targetPage?.getD first
      if targetPage.access_token == "" then (cfg.accessToken, cfg.pageId)
      else (some targetPage.access_token, some targetPage.id)

/-- Embeds `Facebook.post`.  The `/me/accounts` call happens before any
validation, so it is recorded unconditionally. -/
def post (cfg : Config) (env : Env) (content : PostContent) : Outcome :=
  let resolved := resolveTarget cfg env
  let pageAccessToken := resolved.1
  match resolved.2 with
  | none => fail "No target Page ID found for Facebook post." [Call.accounts]
  | some pid =>
    if pid == "" then fail "No target Page ID found for Facebook post." [Call.accounts]
    else
    match content.media with
    | some (mediaPath :: _) =>
      if ¬ strStartsWith mediaPath "http" then
        fail "Facebook Graph API (Axios implementation) requires public URLs for media."
          [Call.accounts]
      else
        match env.photosResp with
        | .ok postId =>
          ⟨{ platform := "facebook", success := true, postId := some postId },
            [Call.accounts, Call.photos pid pageAccessToken mediaPath content.text]⟩
        | .error e => fail e [Call.accounts, Call.photos pid pageAccessToken mediaPath content.text]
    | _ =>
      match content.text with
      | some t =>
        if t == "" then fail "No content provided for Facebook post" [Call.accounts]
        else
          match env.feedResp with
          | .ok postId =>
            ⟨{ platform := "facebook", success := true, postId := some postId },
              [Call.accounts, Call.feed pid pageAccessToken t]⟩
          | .error e => fail e [Call.accounts, Call.feed pid pageAccessToken t]
      | none => fail "No content provided for Facebook post" [Call.accounts]

end Facebook

/-- C3 counterexample: the claim requires every adapter with an absent
access token to fail synchronously **without any network call**, but a
Facebook adapter with no access token (and no page id) still performs the
`/me/accounts` network call before failing. -/
theorem C3_counterexample_facebook_network_call_without_token :
    (Facebook.post { accessToken := none, pageId := none }
        { accounts := .error "Request failed with status code 400",
          photosResp := .error "unused", feedResp := .error "unused" }
        { text := some "hi" }).result.success = false ∧
      (Facebook.post { accessToken := none, pageId := none }
        { accounts := .error "Request failed with status code 400",
          photosResp := .error "unused", feedResp := .error "unused" }
        { text := some "hi" }).calls = [Facebook.Call.accounts] ∧
      ([Facebook.Call.accounts] : List Facebook.Call).length ≠ 0 := by
  decide

/-- C9: when the configured `pageId` matches none of the returned pages (or
no `pageId` is configured) and at least one page is returned whose `id` and
`access_token` are present (truthy), `Facebook.post` silently falls back to
the first returned page: the publish call targets that page's id with that
page's access token and succeeds — no validation failure is raised. -/
theorem C9_facebook_falls_back_to_first_page
    (cfg : Facebook.Config) (env : Facebook.Env) (content : PostContent)
    (first : Facebook.Page) (rest : List Facebook.Page) (t pid : String)
    (hacc : env.accounts = .ok (first :: rest))
    (hnomatch : ∀ p, cfg.pageId = some p →
      (first :: rest).find? (fun q => q.id == p) = none)
    (hid : first.id ≠ "")
    (htok : first.access_token ≠ "")
    (hmedia : content.media = none) (htext : content.text = some t) (htne : t ≠ "")
    (hfeed : env.feedResp = .ok pid) :
    Facebook.post cfg env content =
      ⟨{ platform := "facebook", success := true, postId := some pid },
        [Facebook.Call.accounts,
          Facebook.Call.feed first.id (some first.access_token) t]⟩ := by
  have hres : Facebook.resolveTarget cfg env = (some first.access_token, some first.id) := by
    rw [Facebook.resolveTarget, hacc]
    cases hp : cfg.pageId with
    | none => simp [htok]
    | some p =>
      by_cases hpe : p = ""
      · subst hpe; simp [htok]
      · simp [hnomatch p hp, hpe, htok]
  rw [Facebook.post, hres, hmedia, htext]
  simp [hid, htne, hfeed]

/-- Witness for C9: a configured page id `nope` matching neither of the two
returned pages; the post lands on the first page `p1` with its page token. -/
theorem C9_witness :
    Facebook.post { accessToken := some "user-token", pageId := some "nope" }
        { accounts := .ok [⟨"p1", "Page One", "page-token"⟩, ⟨"p2", "Page Two", "tok2"⟩],
          photosResp := .error "unused", feedResp := .ok "post9" }
        { text := some "hello" } =
      ⟨{ platform := "facebook", success := true, postId := some "post9" },
        [Facebook.Call.accounts, Facebook.Call.feed "p1" (some "page-token") "hello"]⟩ :=
  C9_facebook_falls_back_to_first_page
    { accessToken := some "user-token", pageId := some "nope" }
    { accounts := .ok [⟨"p1", "Page One", "page-token"⟩, ⟨"p2", "Page Two", "tok2"⟩],
      photosResp := .error "unused", feedResp := .ok "post9" }
    { text := some "hello" }
    ⟨"p1", "Page One", "page-token"⟩ [⟨"p2", "Page Two", "tok2"⟩] "hello" "post9"
    rfl (by intro p hp; cases hp; decide) (by decide) (by decide) rfl rfl (by decide) rfl

/-! ## Slack adapter (`src/platforms/Slack.ts`, `post` at lines 81-162)

`Slack.post(content, channelId?)` takes `channelId` as a **second
parameter with no default**; `SocialManager.share` calls `post(content)`
with one argument, so a dispatched Slack post always sees
`channelId = undefined`. -/

namespace Slack

structure Config where
  accessToken : Option String := none

structure MsgResp where
  ok : Bool
  error : Option String
  ts : String
deriving Repr, DecidableEq

structure Env where
  join : Except String Unit
  postMessage : Except String MsgResp

structure Outcome where
  result : PostResult
  calls : Nat
deriving Repr, DecidableEq

/-- A failed Slack `PostResult` with its network-call count. -/
def fail (e : String) (calls : Nat) : Outcome :=
  ⟨{ platform := "slack", success := false, error := some e }, calls⟩

/-- JS `a || b` on an optional string against a default. -/
def jsOrElse (o : Option String) (d : String) : String :=
  match o with
  | some s => if s == "" then d else s
  | none => d

/-- Embeds `Slack.post`: token check, channel check, `conversations.join`,
then `chat.postMessage`, whose `ok:false` response throws
`response.data.error || 'Failed to post message'`. -/
def post (cfg : Config) (env : Env) (_content : PostContent) (channelId : Option String) :
    Outcome :=
  if ¬ strOptTruthy cfg.accessToken then fail "Slack posting requires accessToken." 0
  else if ¬ strOptTruthy channelId then fail "Slack posting requires a channelId." 0
  else
    match env.join with
    | .error e => fail e 1
    | .ok _ =>
      match env.postMessage with
      | .error e => fail e 2
      | .ok resp =>
        if ¬ resp.ok then fail (jsOrElse resp.error "Failed to post message") 2
        else ⟨{ platform := "slack", success := true, postId := some resp.ts }, 2⟩

/-- The Slack instance as registered by the `SocialManager` constructor:
`share` invokes `post` with only the content argument. -/
def adapter (cfg : Config) (env : Env) : Adapter :=
  { name := "slack", post := fun c => .ok (post cfg env c none).result }

end Slack

/-- C8 counterexample: the claim asserts every dispatched Slack post fails
with `Slack posting requires a channelId.`, but `config.slack.accessToken`
is optional and a tokenless Slack adapter fails earlier, with the distinct
diagnostic `Slack posting requires accessToken.`. -/
theorem C8_counterexample_tokenless_slack_diagnostic :
    share [("slack", Slack.adapter { accessToken := none }
        { join := .ok (), postMessage := .error "unused" })] { text := some "hi" } none =
      [{ platform := "slack", success := false,
          error := some "Slack posting requires accessToken." }] ∧
      ("Slack posting requires accessToken." : String) ≠
        "Slack posting requires a channelId." := by
  constructor
  · rfl
  · decide

/-- C8 as amended: for a Slack adapter whose config carries an access
token, every request dispatched through `share` yields `success:false` with
the diagnostic `Slack posting requires a channelId.` and performs no
network call, because `share` passes no `channelId` and the Slack config
carries none; a tokenless Slack adapter instead fails with
`Slack posting requires accessToken.`, likewise without a network call. -/
theorem C8_amended_slack_channelId_diagnostic
    (cfg : Slack.Config) (env : Slack.Env) (c : PostContent)
    (htok : strOptTruthy cfg.accessToken = true) :
    Slack.post cfg env c none =
        Slack.fail "Slack posting requires a channelId." 0 ∧
      share [("slack", Slack.adapter cfg env)] c none =
        [{ platform := "slack", success := false,
            error := some "Slack posting requires a channelId." }] ∧
      (Slack.post { accessToken := none } env c none).calls = 0 := by
  have hpost : Slack.post cfg env c none =
      Slack.fail "Slack posting requires a channelId." 0 := by
    rw [Slack.post, if_neg (by simp [htok]), if_pos (by simp [strOptTruthy])]
  refine ⟨hpost, ?_, rfl⟩
  show shareLoop _ c (keysOf _) = _
  simp [keysOf, shareLoop, getPlatform, List.find?, Slack.adapter, hpost, Slack.fail]

/-- Witness for the amended C8: a Slack adapter configured with a token. -/
theorem C8_amended_witness :
    Slack.post { accessToken := some "xoxb" }
        { join := .ok (), postMessage := .error "unused" } { text := some "hi" } none =
      Slack.fail "Slack posting requires a channelId." 0 :=
  (C8_amended_slack_channelId_diagnostic { accessToken := some "xoxb" }
    { join := .ok (), postMessage := .error "unused" } { text := some "hi" }
    (by decide)).1

/-- JS `a || b` on optional strings (`channelId || this.defaultChannelId`). -/
def optOr (a b : Option String) : Option String :=
  if strOptTruthy a then a else b

/-! ## Twitter adapter (`Twitter.post`)

The constructor builds the OAuth 1.0a signer only when `apiKey` and
`apiSecret` are given, and the token only when additionally `accessToken`
and `accessSecret` are given; `post` requires both.  Each media item is
fetched (URL) or read from disk (path), then uploaded; finally the tweet is
created. -/

namespace Twitter

structure Config where
  apiKey : Option String := none
  apiSecret : Option String := none
  accessToken : Option String := none
  accessSecret : Option String := none

/-- Is `this.oauth` set (constructor line: `if (config.apiKey && config.apiSecret)`)? -/
def hasOAuth (cfg : Config) : Bool :=
  strOptTruthy cfg.apiKey && strOptTruthy cfg.apiSecret

/-- Is `this.token` set (`if (config.accessToken && config.accessSecret)`,
nested inside the `oauth` branch)? -/
def hasToken (cfg : Config) : Bool :=
  hasOAuth cfg && strOptTruthy cfg.accessToken && strOptTruthy cfg.accessSecret

structure Env where
  fetchMedia : Nat → Except String String
  readFile : String → Except String String
  upload : Nat → Except String String
  tweet : Except String String

/-- Embeds the media loop of `Twitter.post`: URL media is downloaded (one
network call) then uploaded (one call); local media is read from disk (not
a network call, but a read failure is thrown and caught) then uploaded.
Returns the collected media ids and the network-call count, or the thrown
error with the count. -/
def uploadAll (env : Env) : List String → Nat → Nat → Except (String × Nat) (List String × Nat)
  | [], _, n => .ok ([], n)
  | m :: ms, i, n =>
    if strStartsWith m "http" then
      match env.fetchMedia i with
      | .error e => .error (e, n + 1)
      | .ok _buf =>
        match env.upload i with
        | .error e => .error (e, n + 2)
        | .ok mid =>
          match uploadAll env ms (i + 1) (n + 2) with
          | .error x => .error x
          | .ok (ids, c) => .ok (mid :: ids, c)
    else
      match env.readFile m with
      | .error e => .error (e, n)
      | .ok _buf =>
        match env.upload i with
        | .error e => .error (e, n + 1)
        | .ok mid =>
          match uploadAll env ms (i + 1) (n + 1) with
          | .error x => .error x
          | .ok (ids, c) => .ok (mid :: ids, c)

/-- Embeds `Twitter.post`. -/
def post (cfg : Config) (env : Env) (content : PostContent) : PostResult × Nat :=
  if ¬ hasOAuth cfg ∨ ¬ hasToken cfg then
    ({ platform := "twitter", success := false,
       error := some "Twitter posting requires OAuth 1.0a credentials (apiKey, apiSecret, accessToken, accessSecret)." }, 0)
  else
    let mediaList := match content.media with | some l => l | none => []
    match uploadAll env mediaList 0 0 with
    | .error (e, n) => ({ platform := "twitter", success := false, error := some e }, n)
    | .ok (_mediaIds, n) =>
      match env.tweet with
      | .ok id => ({ platform := "twitter", success := true, postId := some id }, n + 1)
      | .error e => ({ platform := "twitter", success := false, error := some e }, n + 1)

end Twitter

/-! ## LinkedIn adapter (`src/platforms/LinkedIn.ts`, `post` at lines 194-316) -/

namespace LinkedIn

structure Config where
  accessToken : Option String := none
  authorId : Option String := none

structure Env where
  initUpload : Except String (String × String)
  fetchImage : Except String String
  readFile : Except String String
  putUpload : Except String Unit
  createPost : Except String String

/-- A failed LinkedIn `PostResult` with its network-call count. -/
def fail (e : String) (calls : Nat) : PostResult × Nat :=
  ({ platform := "linkedin", success := false, error := some e }, calls)

/-- Step 4 of `LinkedIn.post` (create the post; lines 282-303). -/
def publishStep (env : Env) (calls : Nat) : PostResult × Nat :=
  match env.createPost with
  | .ok pid => ({ platform := "linkedin", success := true, postId := some pid }, calls + 1)
  | .error e => fail e (calls + 1)

/-- Embeds `LinkedIn.post`: credential check, optional image upload
(initialize, fetch-or-read, PUT), then post creation. -/
def post (cfg : Config) (env : Env) (content : PostContent) : PostResult × Nat :=
  if ¬ strOptTruthy cfg.accessToken ∨ ¬ strOptTruthy cfg.authorId then
    fail "LinkedIn posting requires accessToken and authorId. Authenticate first." 0
  else
    match content.media with
    | some (mediaPath :: _) =>
      match env.initUpload with
      | .error e => fail e 1
      | .ok (_uploadUrl, _imageUrn) =>
        if strStartsWith mediaPath "http://" || strStartsWith mediaPath "https://" then
          match env.fetchImage with
          | .error e => fail e 2
          | .ok _buf =>
            match env.putUpload with
            | .error e => fail e 3
            | .ok _ => publishStep env 3
        else
          match env.readFile with
          | .error e => fail e 1
          | .ok _buf =>
            match env.putUpload with
            | .error e => fail e 2
            | .ok _ => publishStep env 2
    | _ => publishStep env 0

end LinkedIn

/-! ## TikTok adapter (`TikTok.post`) -/

namespace TikTok

structure Config where
  accessToken : Option String := none

structure Env where
  init : Except String String

/-- A failed TikTok `PostResult` with its network-call count. -/
def fail (e : String) (calls : Nat) : PostResult × Nat :=
  ({ platform := "tiktok", success := false, error := some e }, calls)

/-- Embeds `TikTok.post`: token, media and URL checks, then the single
`post/publish/video/init/` call whose `publish_id` is returned as the post
id (polling is left unimplemented in the source). -/
def post (cfg : Config) (env : Env) (content : PostContent) : PostResult × Nat :=
  if ¬ strOptTruthy cfg.accessToken then fail "TikTok posting requires accessToken." 0
  else
    match content.media with
    | some (videoUrl :: _) =>
      if ¬ strStartsWith videoUrl "http" then
        fail "TikTok integration currently only supports public URLs (PULL_FROM_URL)." 0
      else
        match env.init with
        | .ok publishId => ({ platform := "tiktok", success := true, postId := some publishId }, 1)
        | .error e => fail e 1
    | _ => fail "TikTok requires a video URL." 0

end TikTok

/-! ## Reddit adapter (`Reddit.post` and `Reddit.uploadFile`) -/

namespace Reddit

structure Config where
  accessToken : Option String := none
  subreddit : Option String := none

structure SubmitResp where
  errors : List String
  id : String
deriving Repr, DecidableEq

structure Env where
  lease : Except String Unit
  s3 : Except String (Option String)
  submitResp : Except String SubmitResp

/-- A failed Reddit `PostResult` with its network-call count. -/
def fail (e : String) (calls : Nat) : PostResult × Nat :=
  ({ platform := "reddit", success := false, error := some e }, calls)

/-- Embeds `Reddit.uploadFile`: lease call, S3 upload call, then the
`<Location>` extraction, which throws when the response carries none. -/
def uploadFile (env : Env) : Except (String × Nat) (String × Nat) :=
  match env.lease with
  | .error e => .error (e, 1)
  | .ok _ =>
    match env.s3 with
    | .error e => .error (e, 2)
    | .ok loc? =>
      match loc? with
      | some loc => .ok (loc, 2)
      | none => .error ("Failed to retrieve uploaded file location from Reddit.", 2)

/-- Embeds `Reddit.post`: token and subreddit checks, optional media
handling (URL link vs. local-file upload), then the submit call, whose
`json.errors` are surfaced (the JSON serialization of the error list is
abbreviated to a comma-joined rendering). -/
def post (cfg : Config) (env : Env) (content : PostContent) : PostResult × Nat :=
  if ¬ strOptTruthy cfg.accessToken then fail "Reddit posting requires accessToken." 0
  else if ¬ strOptTruthy cfg.subreddit then
    fail "Reddit posting requires a defaultSubreddit (configure in SocialConfig)." 0
  else
    let uploaded : Except (String × Nat) Nat :=
      match content.media with
      | some (mediaPath :: _) =>
        if strStartsWith mediaPath "http" then .ok 0
        else
          match uploadFile env with
          | .error x => .error x
          | .ok (_loc, n) => .ok n
      | _ => .ok 0
    match uploaded with
    | .error (e, n) => fail e n
    | .ok n =>
      match env.submitResp with
      | .error e => fail e (n + 1)
      | .ok resp =>
        if resp.errors ≠ [] then
          fail ("Reddit API Error: " ++ String.intercalate ", " resp.errors) (n + 1)
        else ({ platform := "reddit", success := true, postId := some resp.id }, n + 1)

end Reddit

/-! ## Discord adapter (`src/platforms/Discord.ts`, `post` at lines 112-162)

The `SocialManager` constructor passes `config.discord`, which has no
`channelId` field, so a dispatched Discord adapter has no default channel
and `share` passes no explicit one. -/

namespace Discord

structure Config where
  botToken : String
  guildId : Option String := none
  channelId : Option String := none

structure Env where
  fileExists : String → Bool
  send : Except String String

/-- A failed Discord `PostResult` with its network-call count. -/
def fail (e : String) (calls : Nat) : PostResult × Nat :=
  ({ platform := "discord", success := false, error := some e }, calls)

/-- Embeds `Discord.post`: channel resolution (`channelId ||
this.defaultChannelId`), form assembly (local files attached, URLs appended
to the text — no network), then the single messages call. -/
def post (cfg : Config) (env : Env) (_content : PostContent) (channelId : Option String) :
    PostResult × Nat :=
  match optOr channelId cfg.channelId with
  | none => fail "Discord posting requires a channelId." 0
  | some target =>
    if target == "" then fail "Discord posting requires a channelId." 0
    else
      match env.send with
      | .ok mid => ({ platform := "discord", success := true, postId := some mid }, 1)
      | .error e => fail e 1

end Discord

/-! ## Telegram adapter (`Telegram.post`) -/

namespace Telegram

structure Config where
  botToken : String
  chatId : Option String := none

structure Resp where
  ok : Bool
  description : Option String
  messageId : Nat
deriving Repr, DecidableEq

structure Env where
  sendMessage : Except String Resp
  sendSingle : Except String Resp
  sendGroup : Except String Resp

/-- A failed Telegram `PostResult` with its network-call count. -/
def fail (e : String) (calls : Nat) : PostResult × Nat :=
  ({ platform := "telegram", success := false, error := some e }, calls)

/-- One Telegram send call: a non-`ok` response throws
`description || <defaultMsg>`. -/
def handleResp (resp : Except String Resp) (defaultMsg : String) : PostResult × Nat :=
  match resp with
  | .error e => fail e 1
  | .ok r =>
    if ¬ r.ok then fail (Slack.jsOrElse r.description defaultMsg) 1
    else ({ platform := "telegram", success := true, postId := some (toString r.messageId) }, 1)

/-- Embeds `Telegram.post`: chat resolution (`chatId || this.chatId`), then
`sendMessage` / `sendPhoto`-or-`sendVideo` / `sendMediaGroup` depending on
the number of media items. -/
def post (cfg : Config) (env : Env) (content : PostContent) (chatId : Option String) :
    PostResult × Nat :=
  match optOr chatId cfg.chatId with
  | none => fail "Telegram posting requires a chatId." 0
  | some target =>
    if target == "" then fail "Telegram posting requires a chatId." 0
    else
      match content.media with
      | none => handleResp env.sendMessage "Failed to send message"
      | some [] => handleResp env.sendMessage "Failed to send message"
      | some [_m] => handleResp env.sendSingle "Failed to send media"
      | some (_ :: _ :: _) => handleResp env.sendGroup "Failed to send media group"

end Telegram

/-- C3 as amended: for every adapter in the registry **except Facebook**,
an absent access token (and, where the platform stores one, an absent
identity anchor — Instagram's accountId, LinkedIn's authorId, Pinterest's
boardId, Reddit's subreddit, Discord's channelId, Telegram's chatId,
Slack's channelId argument — with Threads' userId excepted, since a missing
userId is fetched over the network) makes `post` return `success:false`
synchronously with zero network calls; Facebook instead performs its
pages-listing call regardless of the missing token. -/
theorem C3_amended_precondition_checks_before_network :
    (∀ (cfg : Instagram.Config) (env : Instagram.Env) (c : PostContent),
      cfg.accessToken = none →
      Instagram.post cfg env c =
        Instagram.fail "Instagram posting requires accessToken and accountId. Authenticate first." 0 0 false) ∧
    (∀ (cfg : Instagram.Config) (env : Instagram.Env) (c : PostContent),
      cfg.accountId = none →
      Instagram.post cfg env c =
        Instagram.fail "Instagram posting requires accessToken and accountId. Authenticate first." 0 0 false) ∧
    (∀ (cfg : YouTube.Config) (env : YouTube.Env) (c : PostContent) (fuel : Nat),
      cfg.accessToken = none → 0 < fuel →
      YouTube.post cfg env c fuel = some (YouTube.fail "YouTube posting requires accessToken." 0 0)) ∧
    (∀ (cfg : Twitter.Config) (env : Twitter.Env) (c : PostContent),
      cfg.accessToken = none →
      Twitter.post cfg env c =
        ({ platform := "twitter", success := false,
           error := some "Twitter posting requires OAuth 1.0a credentials (apiKey, apiSecret, accessToken, accessSecret)." }, 0)) ∧
    (∀ (cfg : LinkedIn.Config) (env : LinkedIn.Env) (c : PostContent),
      cfg.accessToken = none ∨ cfg.authorId = none →
      LinkedIn.post cfg env c =
        LinkedIn.fail "LinkedIn posting requires accessToken and authorId. Authenticate first." 0) ∧
    (∀ (cfg : TikTok.Config) (env : TikTok.Env) (c : PostContent),
      cfg.accessToken = none →
      TikTok.post cfg env c = TikTok.fail "TikTok posting requires accessToken." 0) ∧
    (∀ (cfg : Threads.Config) (env : Threads.Env) (c : PostContent),
      cfg.accessToken = none →
      Threads.post cfg env c = Threads.fail "Threads posting requires accessToken." 0 0 false) ∧
    (∀ (cfg : Pinterest.Config) (env : Pinterest.Env) (c : PostContent) (fuel : Nat),
      cfg.accessToken = none →
      Pinterest.post cfg env c fuel =
        some (Pinterest.fail "Pinterest posting requires accessToken." 0)) ∧
    (∀ (cfg : Pinterest.Config) (env : Pinterest.Env) (c : PostContent) (fuel : Nat),
      strOptTruthy cfg.accessToken = true → cfg.boardId = none →
      Pinterest.post cfg env c fuel =
        some (Pinterest.fail "Pinterest posting requires a boardId (configure in SocialConfig)." 0)) ∧
    (∀ (cfg : Reddit.Config) (env : Reddit.Env) (c : PostContent),
      cfg.accessToken = none →
      Reddit.post cfg env c = Reddit.fail "Reddit posting requires accessToken." 0) ∧
    (∀ (cfg : Reddit.Config) (env : Reddit.Env) (c : PostContent),
      strOptTruthy cfg.accessToken = true → cfg.subreddit = none →
      Reddit.post cfg env c =
        Reddit.fail "Reddit posting requires a defaultSubreddit (configure in SocialConfig)." 0) ∧
    (∀ (cfg : Slack.Config) (env : Slack.Env) (c : PostContent),
      cfg.accessToken = none →
      Slack.post cfg env c none = Slack.fail "Slack posting requires accessToken." 0) ∧
    (∀ (cfg : Slack.Config) (env : Slack.Env) (c : PostContent),
      strOptTruthy cfg.accessToken = true →
      Slack.post cfg env c none = Slack.fail "Slack posting requires a channelId." 0) ∧
    (∀ (cfg : Discord.Config) (env : Discord.Env) (c : PostContent),
      cfg.channelId = none →
      Discord.post cfg env c none = Discord.fail "Discord posting requires a channelId." 0) ∧
    (∀ (cfg : Telegram.Config) (env : Telegram.Env) (c : PostContent),
      cfg.chatId = none →
      Telegram.post cfg env c none = Telegram.fail "Telegram posting requires a chatId." 0) := by
  refine ⟨?_, ?_, ?_, ?_, ?_, ?_, ?_, ?_, ?_, ?_, ?_, ?_, ?_, ?_, ?_⟩
  · intro cfg env c h
    rw [Instagram.post, if_pos (Or.inl (by simp [h, strOptTruthy]))]
  · intro cfg env c h
    rw [Instagram.post, if_pos (Or.inr (by simp [h, strOptTruthy]))]
  · intro cfg env c fuel h hf
    cases fuel with
    | zero => omega
    | succ f =>
      rw [YouTube.post, YouTube.postAux, if_pos (by simp [h, strOptTruthy])]
  · intro cfg env c h
    rw [Twitter.post, if_pos (Or.inr (by simp [Twitter.hasToken, h, strOptTruthy]))]
  · intro cfg env c h
    cases h with
    | inl h => rw [LinkedIn.post, if_pos (Or.inl (by simp [h, strOptTruthy]))]
    | inr h => rw [LinkedIn.post, if_pos (Or.inr (by simp [h, strOptTruthy]))]
  · intro cfg env c h
    rw [TikTok.post, if_pos (by simp [h, strOptTruthy])]
  · intro cfg env c h
    rw [Threads.post, if_pos (by simp [h, strOptTruthy])]
  · intro cfg env c fuel h
    rw [Pinterest.post, if_pos (by simp [h, strOptTruthy])]
  · intro cfg env c fuel htok hb
    rw [Pinterest.post, if_neg (by simp [htok]), if_pos (by simp [hb, strOptTruthy])]
  · intro cfg env c h
    rw [Reddit.post, if_pos (by simp [h, strOptTruthy])]
  · intro cfg env c htok hs
    rw [Reddit.post, if_neg (by simp [htok]), if_pos (by simp [hs, strOptTruthy])]
  · intro cfg env c h
    rw [Slack.post, if_pos (by simp [h, strOptTruthy])]
  · intro cfg env c htok
    rw [Slack.post, if_neg (by simp [htok]), if_pos (by simp [strOptTruthy])]
  · intro cfg env c h
    simp [Discord.post, optOr, h, strOptTruthy]
  · intro cfg env c h
    simp [Telegram.post, optOr, h, strOptTruthy]

/-- Witness for the amended C3: one concrete tokenless (or anchorless)
configuration per adapter, each failing synchronously with zero network
calls. -/
theorem C3_amended_witness :
    Instagram.post { accessToken := none, accountId := some "a" }
        { container := .error "e", pollStatus := fun _ => "", publishResp := .error "e" }
        { text := some "hi" } =
      Instagram.fail "Instagram posting requires accessToken and accountId. Authenticate first." 0 0 false ∧
    YouTube.post { accessToken := none, refreshToken := some "r" }
        { upload := fun _ => .err "e", refresh := fun _ => .error "e" }
        { media := some ["v.mp4"] } 1 =
      some (YouTube.fail "YouTube posting requires accessToken." 0 0) ∧
    Twitter.post { apiKey := some "k", apiSecret := some "s" }
        { fetchMedia := fun _ => .error "e", readFile := fun _ => .error "e",
          upload := fun _ => .error "e", tweet := .error "e" } { text := some "hi" } =
      ({ platform := "twitter", success := false,
         error := some "Twitter posting requires OAuth 1.0a credentials (apiKey, apiSecret, accessToken, accessSecret)." }, 0) ∧
    LinkedIn.post { accessToken := some "t", authorId := none }
        { initUpload := .error "e", fetchImage := .error "e", readFile := .error "e",
          putUpload := .error "e", createPost := .error "e" } { text := some "hi" } =
      LinkedIn.fail "LinkedIn posting requires accessToken and authorId. Authenticate first." 0 ∧
    TikTok.post { accessToken := none } { init := .error "e" } { text := some "hi" } =
      TikTok.fail "TikTok posting requires accessToken." 0 ∧
    Threads.post { accessToken := none, userId := some "u" }
        { fetchMe := .error "e", container := .error "e", poll := fun _ => ⟨"", ""⟩,
          publishResp := .error "e" } { text := some "hi" } =
      Threads.fail "Threads posting requires accessToken." 0 0 false ∧
    Pinterest.post { accessToken := some "t", boardId := none }
        { register := .error "e", upload := .error "e", pollStatus := fun _ => "",
          pin := .error "e" } { text := some "hi" } 7 =
      some (Pinterest.fail "Pinterest posting requires a boardId (configure in SocialConfig)." 0) ∧
    Reddit.post { accessToken := some "t", subreddit := none }
        { lease := .error "e", s3 := .ok none, submitResp := .error "e" } { text := some "hi" } =
      Reddit.fail "Reddit posting requires a defaultSubreddit (configure in SocialConfig)." 0 ∧
    Slack.post { accessToken := none } { join := .ok (), postMessage := .error "e" }
        { text := some "hi" } none =
      Slack.fail "Slack posting requires accessToken." 0 ∧
    Discord.post { botToken := "b" } { fileExists := fun _ => false, send := .error "e" }
        { text := some "hi" } none =
      Discord.fail "Discord posting requires a channelId." 0 ∧
    Telegram.post { botToken := "b" }
        { sendMessage := .error "e", sendSingle := .error "e", sendGroup := .error "e" }
        { text := some "hi" } none =
      Telegram.fail "Telegram posting requires a chatId." 0 := by
  obtain ⟨h1, _h2, h3, h4, h5, h6, h7, _h8, h9, _h10, h11, h12, _h13, h14, h15⟩ :=
    C3_amended_precondition_checks_before_network
  exact ⟨h1 _ _ _ rfl, h3 _ _ _ 1 rfl (by omega), h4 _ _ _ rfl, h5 _ _ _ (Or.inr rfl),
    h6 _ _ _ rfl, h7 _ _ _ rfl, h9 _ _ _ 7 (by decide) rfl, h11 _ _ _ (by decide) rfl,
    h12 _ _ _ rfl, h14 _ _ _ rfl, h15 _ _ _ rfl⟩

/-- A sample configured adapter used to instantiate the dispatcher theorems. -/
def adapterA : Adapter :=
  { name := "platformA"
    post := fun _ => .ok { platform := "platformA", success := true, postId := some "a1" } }

/-- An adapter whose `post` promise always rejects, used as a witness input. -/
def adapterThrowing : Adapter :=
  { name := "platformB", post := fun _ => .error "boom" }

end Socially

namespace Socially

/-- C1: for every publish request and every explicit subset of platform
names (and for the all-configured default when no subset is given),
`share` returns exactly one `PostResult` per attempted target, and the
result sequence is the per-target dispatch outcomes in exactly the order
the targets were processed. -/
theorem C1_share_one_result_per_target_in_order
    (r : Registry) (c : PostContent) (ps? : Option (List String)) :
    (share r c ps?).length = (targetsOf r ps?).length ∧
      share r c ps? = (targetsOf r ps?).map (dispatchResult r c) := by
  refine ⟨?_, share_eq_map r c ps?⟩
  rw [share_eq_map r c ps?, List.length_map]

/-- C2: if the adapter registered under `name` throws an unchecked error
`e`, `share` catches it and emits a `PostResult` with `success := false`
carrying that error for that platform only, while every preceding and
subsequent target is still dispatched and contributes its own result; the
returned value is a total list, so no adapter failure escapes `share`. -/
theorem C2_adapter_throw_is_isolated
    (r : Registry) (c : PostContent) (pre suf : List String) (name : String)
    (a : Adapter) (e : String)
    (hget : getPlatform r name = some a) (hthrow : a.post c = .error e) :
    share r c (some (pre ++ name :: suf)) =
      share r c (some pre) ++
        ({ platform := name, success := false, error := some e } : PostResult) ::
          share r c (some suf) := by
  have hhas : hasPlatform r name = true := hasPlatform_of_getPlatform hget
  show shareLoop r c ((pre ++ name :: suf).filter (fun p => hasPlatform r p)) = _
  rw [List.filter_append, List.filter_cons, if_pos hhas, shareLoop_append,
    shareLoop, hget]
  simp only [hthrow]
  rfl

/-- Witness for C2: a registry of a healthy adapter followed by a throwing
adapter; the throwing adapter's error is converted in place and the healthy
adapter's result is unaffected. -/
theorem C2_witness :
    share [("platformA", adapterA), ("platformB", adapterThrowing)] {} (some ["platformA", "platformB"]) =
      [{ platform := "platformA", success := true, postId := some "a1" },
       { platform := "platformB", success := false, error := some "boom" }] :=
  (C2_adapter_throw_is_isolated
      [("platformA", adapterA), ("platformB", adapterThrowing)] {}
      ["platformA"] [] "platformB" adapterThrowing "boom" rfl rfl).trans rfl

/-- C7: a target name that is not present in the registry is silently
dropped: `share` over a target list containing it equals `share` over the
list with that name removed, so the unknown name contributes neither a
result nor an error. -/
theorem C7_unknown_targets_silently_dropped
    (r : Registry) (c : PostContent) (pre suf : List String) (unknown : String)
    (h : hasPlatform r unknown = false) :
    share r c (some (pre ++ unknown :: suf)) = share r c (some (pre ++ suf)) := by
  show shareLoop r c ((pre ++ unknown :: suf).filter (fun p => hasPlatform r p)) =
    shareLoop r c ((pre ++ suf).filter (fun p => hasPlatform r p))
  rw [List.filter_append, List.filter_cons, if_neg (by simp [h]), List.filter_append]

/-- Witness for C7, the spec's example scenario: dispatching `{text:"hi"}`
to `["platformA","unknownPlatform"]` where only `platformA` is configured
returns a single-element result sequence for `platformA`. -/
theorem C7_witness :
    hasPlatform [("platformA", adapterA)] "unknownPlatform" = false ∧
      share [("platformA", adapterA)] { text := some "hi" } (some ["platformA", "unknownPlatform"]) =
        [{ platform := "platformA", success := true, postId := some "a1" }] :=
  ⟨rfl,
    (C7_unknown_targets_silently_dropped [("platformA", adapterA)]
        { text := some "hi" } ["platformA"] [] "unknownPlatform" rfl).trans rfl⟩

/-- C10: `share` does not deduplicate explicit targets: a configured name
occurring `k` times in the target list is attempted `k` times (the
processed target list preserves the multiplicity), and each of those
occurrences contributes, at its own position, the result of invoking that
adapter's `post` on the request. -/
theorem C10_duplicate_targets_not_deduplicated
    (r : Registry) (c : PostContent) (name : String) (ps : List String)
    (h : hasPlatform r name = true) :
    (targetsOf r (some ps)).count name = ps.count name ∧
      ∀ i : Nat, (targetsOf r (some ps))[i]? = some name →
        (share r c (some ps))[i]? = some (dispatchResult r c name) := by
  constructor
  · exact List.count_filter (by simpa using h)
  · intro i hi
    rw [share_eq_map, List.getElem?_map, hi]
    rfl

/-- Witness for C10: the same configured platform listed twice yields two
results, one per occurrence. -/
theorem C10_witness :
    hasPlatform [("platformA", adapterA)] "platformA" = true ∧
      (targetsOf [("platformA", adapterA)] (some ["platformA", "platformA"])).count "platformA" = 2 ∧
      (share [("platformA", adapterA)] {} (some ["platformA", "platformA"]))[1]? =
        some (dispatchResult [("platformA", adapterA)] {} "platformA") := by
  refine ⟨rfl, ?_, ?_⟩
  · exact (C10_duplicate_targets_not_deduplicated [("platformA", adapterA)] {}
      "platformA" ["platformA", "platformA"] rfl).1.trans rfl
  · exact (C10_duplicate_targets_not_deduplicated [("platformA", adapterA)] {}
      "platformA" ["platformA", "platformA"] rfl).2 1 rfl

end Socially
